import Mathlib

/-
Shallow embedding of `core/domain/question_services.py` (Oppia questions
service layer): the versioned question entity, the memcache read-through
cache, per-user drafts, the summary workflow, and the operations the
specification describes.  Machine state is explicit: every stateful
service function takes a `State` and returns the updated `State` (inside
`Except Err` when the Python code can raise).  Logging is ignored;
`raise` is modelled by `Except.error`, which by construction carries no
updated state — faithful to the source, where every `raise` happens
before any datastore `put`/`commit` on that path.
-/

namespace QuestionServices

/-- `CMD_CREATE_NEW` from `question_services.py` line 31. -/
def CMD_CREATE_NEW : String := "create_new"

/-- Modelled from the spec: the edit-command constant of
`question_domain` (not under src/); §9 of the spec states the change-list
dispatch filters on this command string, which differs from the property
constants below. -/
def CMD_UPDATE_QUESTION_PROPERTY : String := "update_question_property"

/-- Modelled from the spec: property constant of `question_domain`
(not under src/) naming the `language_code` field. -/
def QUESTION_PROPERTY_LANGUAGE_CODE : String := "language_code"

/-- Modelled from the spec: property constant of `question_domain`
(not under src/) naming the `question_data` payload field.  Distinct from
`CMD_UPDATE_QUESTION_PROPERTY`, which is why the spec (§9) calls the
inner `elif change.cmd == QUESTION_PROPERTY_QUESTION_DATA` branch of
`apply_change_list` unreachable. -/
def QUESTION_PROPERTY_QUESTION_DATA : String := "question_data"

/-- Modelled from the spec: `feconf.ACTIVITY_STATUS_PRIVATE` (not under
src/), one of the four workflow statuses of §4.4. -/
def ACTIVITY_STATUS_PRIVATE : String := "private"

/-- Modelled from the spec: `feconf.QUESTION_STATUS_PENDING`. -/
def QUESTION_STATUS_PENDING : String := "pending"

/-- Modelled from the spec: `feconf.QUESTION_STATUS_APPROVED`. -/
def QUESTION_STATUS_APPROVED : String := "approved"

/-- Modelled from the spec: `feconf.QUESTION_STATUS_REJECTED`. -/
def QUESTION_STATUS_REJECTED : String := "rejected"

/-- The `question_domain.Question` domain object, with the four fields
`question_services.py` reads and writes (`get_question_from_model`,
lines 96-109).  The payload `question_data` is opaque to the engine and
modelled as a string. -/
structure Question where
  question_id : String
  question_data : String
  question_data_schema_version : Nat
  language_code : String
  deriving DecidableEq, Repr

/-- Modelled from the spec: `question_domain.Question.update_language_code`
(not under src/); §4.1 "update-language-code replaces `language_code`". -/
def Question.update_language_code (q : Question) (language_code : String) :
    Question :=
  { q with language_code := language_code }

/-- Modelled from the spec: `question_domain.Question.update_question_data`
(not under src/); §4.1 "update-payload replaces `payload`". -/
def Question.update_question_data (q : Question) (question_data : String) :
    Question :=
  { q with question_data := question_data }

/-- The persisted `QuestionModel`.  The fields `id`, `question_data`,
`question_data_schema_version` and `language_code` are the ones
`_save_question` copies (lines 237-241).  `version` is the
`VersionedModel` commit counter (the entity's canonical version), not in
src/; modelled from the spec §3: "`version` (integer, monotonically
increasing, starts at 1 on creation, incremented by one per successful
commit)".  It is distinct from `question_data_schema_version`, which per
§3 "increments only via explicit migration edits, not every commit". -/
structure QuestionModel where
  id : String
  question_data : String
  question_data_schema_version : Nat
  language_code : String
  version : Nat
  deriving DecidableEq, Repr

/-- A `question_domain.QuestionChange` entry as used by
`apply_change_list`: a command string, a property name and the new
value (old values play no role in the service code). -/
structure QuestionChange where
  cmd : String
  property_name : String
  new_value : String
  deriving DecidableEq, Repr

/-- The `QuestionSummaryModel` fields the workflow functions touch:
`creator_id`, `language_code` and `status` (strings, per `feconf`). -/
structure QuestionSummaryModel where
  creator_id : String
  language_code : String
  status : String
  deriving DecidableEq, Repr

/-- The per-(user, question) `QuestionUserDataModel` draft row.  The
change list is stored as `None` or a list (cleared drafts keep the row
with `None` fields, `discard_draft` lines 633-639); timestamps are
modelled as naturals. -/
structure QuestionUserDataModel where
  draft_change_list : Option (List QuestionChange)
  draft_change_list_last_updated : Option Nat
  draft_change_list_question_version : Option Nat
  draft_change_list_id : Nat
  deriving DecidableEq, Repr

/-- Modelled from the spec: `QuestionUserDataModel.create` (user model
classes are not under src/); §4.3 "If no Draft row exists yet, one is
created first with `draft_id` starting at 0 before the increment". -/
def QuestionUserDataModel.create : QuestionUserDataModel :=
  { draft_change_list := none
    draft_change_list_last_updated := none
    draft_change_list_question_version := none
    draft_change_list_id := 0 }

/-- Modelled from the spec: the external permission collaborator of §6
(`is_admin`, `is_topic_manager`, and membership of
`role_services.ACTION_CHANGE_QUESTION_STATUS` in `user.actions`),
passed in explicitly as §9's design notes prescribe. -/
structure UserInfo where
  is_admin : Bool
  is_topic_manager : Bool
  can_change_question_status : Bool
  deriving DecidableEq, Repr

/-- The mutable world for a single question id and a single user:
the committed versions of the question model (newest first; the head is
the current snapshot, older entries the immutable history), the
memcache entries for this question (keyed by the optional explicit
version, `none` being the unversioned key), the user's draft row, and
the question's summary model. -/
structure State where
  models : List QuestionModel
  cache : List (Option Nat × Question)
  userData : Option QuestionUserDataModel
  summary : Option QuestionSummaryModel
  deriving DecidableEq, Repr

/-- The distinguishable failure kinds raised by the embedded functions.
The Python source raises `Exception` with distinct messages;
`attributeError` stands for Python's attribute error when a function
dereferences a `None` model. -/
inductive Err where
  | notFound
  | invalidChangeList
  | permissionDenied
  | alreadyPublished
  | alreadyUnpublished
  | attributeError
  deriving DecidableEq, Repr

/-- `memcache_services.get_multi([key]).get(key)` restricted to the one
question: look the key up among the cached entries. -/
def cacheGet (cache : List (Option Nat × Question)) (key : Option Nat) :
    Option Question :=
  match cache.find? (fun e => e.1 == key) with
  | some e => some e.2
  | none => none

/-- `memcache_services.set_multi({key: question})`: overwrite the entry
for the key. -/
def cacheSet (cache : List (Option Nat × Question)) (key : Option Nat)
    (q : Question) : List (Option Nat × Question) :=
  (key, q) :: cache.filter (fun e => !(e.1 == key))

/-- `_get_question_memcache_key` (lines 112-128): the unversioned key
when `version` is falsy (`None` or `0`), the versioned key otherwise. -/
def _get_question_memcache_key (version : Option Nat) : Option Nat :=
  match version with
  | some v => if v = 0 then none else some v
  | none => none

/-- `QuestionModel.get(question_id, version=...)` on the embedded store:
the current model for `version=None`, the stored historical version
otherwise. -/
def QuestionModel.get (st : State) (version : Option Nat) :
    Option QuestionModel :=
  match version with
  | none => st.models.head?
  | some v => st.models.find? (fun m => m.version == v)

/-- `get_question_from_model` (lines 96-109). -/
def get_question_from_model (question_model : QuestionModel) : Question :=
  { question_id := question_model.id
    question_data := question_model.question_data
    question_data_schema_version :=
      question_model.question_data_schema_version
    language_code := question_model.language_code }

/-- `get_question_by_id` (lines 131-161) with `strict=True`, the form
every call site relevant to the claims uses: return the cached snapshot
on a cache hit; otherwise load the model, convert it, write it to the
cache and return it; fail when the model is absent. -/
def get_question_by_id (st : State) (version : Option Nat) :
    Except Err (Question × State) :=
  let question_memcache_key := _get_question_memcache_key version
  match cacheGet st.cache question_memcache_key with
  | some memcached_question => .ok (memcached_question, st)
  | none =>
    match QuestionModel.get st version with
    | some question_model =>
      let question := get_question_from_model question_model
      .ok (question,
        { st with cache := cacheSet st.cache question_memcache_key question })
    | none => .error .notFound

/-- The body of the `for change in change_list` loop of
`apply_change_list` (lines 195-202), transcribed with its exact branch
structure: the inner `elif` tests `change.cmd` (not
`change.property_name`) against `QUESTION_PROPERTY_QUESTION_DATA`, and
a change matching no branch falls through with no effect. -/
def apply_one_change (question : Question) (change : QuestionChange) :
    Question :=
  if change.cmd = CMD_UPDATE_QUESTION_PROPERTY then
    if change.property_name = QUESTION_PROPERTY_LANGUAGE_CODE then
      question.update_language_code change.new_value
    else if change.cmd = QUESTION_PROPERTY_QUESTION_DATA then
      question.update_question_data change.new_value
    else question
  else question

/-- `apply_change_list` (lines 181-211): fetch the pristine question
through the cache, then fold the changes over it in list order.  The
`try/except` wrapper only logs and re-raises, so it adds nothing to the
model. -/
def apply_change_list (st : State) (change_list : List QuestionChange) :
    Except Err (Question × State) :=
  match get_question_by_id st none with
  | .error e => .error e
  | .ok (question, st1) =>
    .ok (change_list.foldl apply_one_change question, st1)

/-- `_save_question` (lines 214-243): reject an empty change list, copy
the domain object's fields onto the freshly fetched model and commit it.
`model.commit` (platform code, not under src/) is modelled from the
spec §3 as pushing a new model whose `version` is one higher; the old
head stays as history.  `question.validate()` lives in `question_domain`
(not under src/) and checks structural constraints orthogonal to these
claims; it is modelled as always succeeding.  Note the function touches
no cache entry. -/
def _save_question (st : State) (question : Question)
    (change_list : List QuestionChange) : Except Err State :=
  if change_list.isEmpty then .error .invalidChangeList
  else
    match st.models.head? with
    | none => .error .notFound
    | some question_model =>
      let question_model :=
        { question_model with
          question_data := question.question_data
          question_data_schema_version :=
            question.question_data_schema_version
          language_code := question.language_code
          version := question_model.version + 1 }
      .ok { st with models := question_model :: st.models }

/-- `update_question` (lines 246-262): apply the change list, then save.
`committer_id` and `commit_message` flow only into the commit-log
metadata and are kept as parameters for fidelity. -/
def update_question (st : State) (committer_id : String)
    (change_list : List QuestionChange) (commit_message : String) :
    Except Err State :=
  match apply_change_list st change_list with
  | .error e => .error e
  | .ok (updated_question, st1) =>
    _save_question st1 updated_question change_list

/-- `check_can_edit_question` (lines 497-524), with the permission
collaborator passed in as a `UserInfo`.  The summary is fetched with
`strict=False`; the source then dereferences `.status` unchecked, so an
absent summary is an attribute error. -/
def check_can_edit_question (st : State) (user_id : String)
    (user : UserInfo) : Except Err Bool :=
  match st.summary with
  | none => .error .attributeError
  | some question_summary =>
    if question_summary.status = QUESTION_STATUS_PENDING then
      .ok false
    else if (question_summary.status = ACTIVITY_STATUS_PRIVATE ∨
        question_summary.status = QUESTION_STATUS_REJECTED) ∧
        question_summary.creator_id = user_id then
      .ok true
    else if user.is_admin || user.is_topic_manager then
      if question_summary.status = QUESTION_STATUS_APPROVED then .ok true
      else .ok false
    else .ok false

/-- `publish_question` (lines 527-551): existence check, capability
check, already-published check, then set the status and `put()`. -/
def publish_question (st : State) (committer : UserInfo) :
    Except Err State :=
  match st.summary with
  | none => .error .notFound
  | some question_summary =>
    if !committer.can_change_question_status then .error .permissionDenied
    else if question_summary.status = QUESTION_STATUS_APPROVED then
      .error .alreadyPublished
    else
      .ok { st with summary := some { question_summary with status := QUESTION_STATUS_APPROVED } }

/-- `unpublish_question` (lines 554-579): existence check, capability
check, not-approved check, then set the status to private and `put()`. -/
def unpublish_question (st : State) (committer : UserInfo) :
    Except Err State :=
  match st.summary with
  | none => .error .notFound
  | some question_summary =>
    if !committer.can_change_question_status then .error .permissionDenied
    else if !(question_summary.status = QUESTION_STATUS_APPROVED) then
      .error .alreadyUnpublished
    else
      .ok { st with summary := some { question_summary with status := ACTIVITY_STATUS_PRIVATE } }

/-- `reject_question` (lines 351-367): fetch the summary with
`strict=False` (an absent summary makes the following `.status`
assignment an attribute error), set the status to rejected
unconditionally and commit.  The source performs no capability or
state check; `committer_id` only reaches the commit log. -/
def reject_question (st : State) (committer_id : String) :
    Except Err State :=
  match st.summary with
  | none => .error .attributeError
  | some model =>
    .ok { st with summary := some { model with status := QUESTION_STATUS_REJECTED } }

/-- `is_version_of_draft_valid` (lines 582-595): the source compares the
given draft version against `question_data_schema_version` of the
fetched question (the domain object carries no commit version).  The
Python `==` against a possibly-`None` argument is the `Option` equality
test here. -/
def is_version_of_draft_valid (st : State) (version : Option Nat) :
    Except Err (Bool × State) :=
  match get_question_by_id st none with
  | .error e => .error e
  | .ok (question, st1) =>
    .ok (some question.question_data_schema_version == version, st1)

/-- `get_question_with_draft_applied` (lines 598-622): fetch the draft
row and the canonical question; when a row with a truthy (non-`None`,
non-empty) change list exists and `is_version_of_draft_valid` accepts
its recorded base version, re-apply the draft through
`apply_change_list`; otherwise return the canonical question.  The
conditional expression's short-circuit evaluation order is preserved. -/
def get_question_with_draft_applied (st : State) :
    Except Err (Question × State) :=
  let question_user_data := st.userData
  match get_question_by_id st none with
  | .error e => .error e
  | .ok (question, st1) =>
    match question_user_data with
    | none => .ok (question, st1)
    | some d =>
      match d.draft_change_list with
      | none => .ok (question, st1)
      | some draft_change_list =>
        if draft_change_list.isEmpty then .ok (question, st1)
        else
          match is_version_of_draft_valid st1
              d.draft_change_list_question_version with
          | .error e => .error e
          | .ok (valid, st2) =>
            if valid then apply_change_list st2 draft_change_list
            else .ok (question, st2)

/-- `discard_draft` (lines 625-639): when a draft row exists, null out
its change list, timestamp and base version and `put()` it back,
keeping the row and its `draft_change_list_id`; when none exists, do
nothing.  Total — it can never fail. -/
def discard_draft (st : State) : State :=
  match st.userData with
  | none => st
  | some question_user_data =>
    { st with userData := some { question_user_data with draft_change_list := none, draft_change_list_last_updated := none, draft_change_list_question_version := none } }

/-- Truthiness of `question_user_data and question_user_data.draft_change_list`
in `create_or_update_draft`'s guard: a row must exist and hold a
non-`None`, non-empty change list. -/
def draftTruthy : Option QuestionUserDataModel → Bool
  | none => false
  | some d =>
    match d.draft_change_list with
    | none => false
    | some l => !l.isEmpty

/-- The `draft_change_list_last_updated > current_datetime` comparison
of `create_or_update_draft`'s guard. A `None` timestamp compares below
every datetime (Python 2 ordering), so it never counts as newer. -/
def draftNewer (ud : Option QuestionUserDataModel) (current_datetime : Nat) :
    Bool :=
  match ud with
  | none => false
  | some d =>
    match d.draft_change_list_last_updated with
    | none => false
    | some t => current_datetime < t

/-- `create_or_update_draft` (lines 680-717): silently return when an
existing draft has a truthy change list and a strictly newer timestamp;
otherwise apply the change list to the current question (a validity
check on the result, from `question_domain` outside src/, is modelled
as always succeeding), create the row with `draft_change_list_id = 0`
when absent, and store the new change list, timestamp and base version
with the id incremented by one. -/
def create_or_update_draft (st : State)
    (change_list : List QuestionChange) (question_version : Nat)
    (current_datetime : Nat) : Except Err State :=
  let question_user_data := st.userData
  if draftTruthy question_user_data &&
      draftNewer question_user_data current_datetime then
    .ok st
  else
    match apply_change_list st change_list with
    | .error e => .error e
    | .ok (_, st1) =>
      let d :=
        match question_user_data with
        | none => QuestionUserDataModel.create
        | some d => d
      let draft_change_list_id := d.draft_change_list_id + 1
      let question_user_data : QuestionUserDataModel :=
        { draft_change_list := some change_list
          draft_change_list_last_updated := some current_datetime
          draft_change_list_question_version := some question_version
          draft_change_list_id := draft_change_list_id }
      .ok { st1 with userData := some question_user_data }

/-- Equality of embedded results is decidable, so concrete runs of the
service functions can be settled by evaluation. -/
instance instDecidableEqExcept {e a : Type} [DecidableEq e] [DecidableEq a] :
    DecidableEq (Except e a) := fun x y =>
  match x, y with
  | .ok v, .ok w =>
    if h : v = w then .isTrue (h ▸ rfl)
    else .isFalse (fun hh => h (Except.ok.inj hh))
  | .error v, .error w =>
    if h : v = w then .isTrue (h ▸ rfl)
    else .isFalse (fun hh => h (Except.error.inj hh))
  | .ok _, .error _ => .isFalse (fun hh => Except.noConfusion hh)
  | .error _, .ok _ => .isFalse (fun hh => Except.noConfusion hh)

/-- A change list entry updating the language code, as built by the
question editor.  Fields: `cmd`, `property_name`, `new_value`. -/
def updateLanguageCodeChange (v : String) : QuestionChange :=
  ⟨CMD_UPDATE_QUESTION_PROPERTY, QUESTION_PROPERTY_LANGUAGE_CODE, v⟩

/-- A change list entry updating the question data payload. -/
def updateQuestionDataChange (v : String) : QuestionChange :=
  ⟨CMD_UPDATE_QUESTION_PROPERTY, QUESTION_PROPERTY_QUESTION_DATA, v⟩

/-- The version-3 model of the C1 scenario: entity version 3, payload
schema version still 1 (fields: id, data, schema version, language,
version). -/
def qmC1 : QuestionModel := ⟨"q1", "d", 1, "en", 3⟩

/-- The canonical snapshot of `qmC1` as a domain object. -/
def qC1 : Question := ⟨"q1", "d", 1, "en"⟩

/-- A question at entity version 3 with a user draft recorded against
base version 1 (draft fields: change list, last updated, base version,
draft id). -/
def stC1 : State :=
  ⟨[qmC1], [], some ⟨some [updateLanguageCodeChange "fr"], some 10, some 1, 1⟩, none⟩

/-- `stC1` after one read-through populated the unversioned cache key. -/
def stC1applied : State := { stC1 with cache := [(none, qC1)] }

/-- Claim C1: the draft staleness rule.  The source's
`is_version_of_draft_valid` compares the draft's recorded base version
against `question_data_schema_version`, not against the entity's commit
version, contradicting its own docstring ("the current version number
of the question in the datastore").  At `stC1` the entity is at version
3 and the draft's base version is 1, yet because the schema version is
also 1 the draft is judged valid and applied:
`get_question_with_draft_applied` returns the draft language `"fr"`
while the canonical snapshot `get_question_by_id` returns has `"en"`. -/
theorem stale_draft_applied_when_schema_version_matches :
    stC1.models.head? = some qmC1 ∧ qmC1.version = 3 ∧
    (stC1.userData.bind fun d => d.draft_change_list_question_version) = some 1 ∧
    get_question_with_draft_applied stC1 = .ok (⟨"q1", "d", 1, "fr"⟩, stC1applied) ∧
    get_question_by_id stC1 none = .ok (qC1, stC1applied) ∧
    qC1.language_code = "en" := by
  decide

/-- A freshly stored question at version 1, nothing cached yet. -/
def stC2 : State := ⟨[⟨"q1", "d", 1, "en", 1⟩], [], none, none⟩

/-- The version-1 snapshot of `stC2` as a domain object. -/
def qC2 : Question := ⟨"q1", "d", 1, "en"⟩

/-- `stC2` after a read populated the unversioned cache key. -/
def stC2cached : State := { stC2 with cache := [(none, qC2)] }

/-- `stC2cached` after `update_question` committed version 2 with the
language changed to `"fr"`; the unversioned cache entry still holds the
version-1 snapshot. -/
def stC2committed : State :=
  { stC2cached with models := [⟨"q1", "d", 1, "fr", 2⟩, ⟨"q1", "d", 1, "en", 1⟩] }

/-- Claim C2: cache coherency on commit.  `_save_question` commits the
new version without invalidating or overwriting any cache entry, so
after a read has populated the unversioned key and `update_question`
has committed version 2, a subsequent `get_question_by_id` with
`version=None` still returns the pre-commit version-1 snapshot
(language `"en"`), although the committed head has language `"fr"` at
version 2 — contradicting `get_question_by_id`'s own contract that the
latest version is returned when no version is pinned. -/
theorem commit_leaves_stale_unversioned_cache_entry :
    get_question_by_id stC2 none = .ok (qC2, stC2cached) ∧
    update_question stC2cached "committer" [updateLanguageCodeChange "fr"]
      "change language" = .ok stC2committed ∧
    stC2committed.models.head? = some ⟨"q1", "d", 1, "fr", 2⟩ ∧
    get_question_by_id stC2committed none = .ok (qC2, stC2committed) ∧
    qC2.language_code = "en" := by
  decide

/-- A single-version question used to exercise the change-list engine. -/
def stC3 : State := ⟨[⟨"q1", "d", 1, "en", 1⟩], [], none, none⟩

/-- `stC3` after the read-through of `apply_change_list`. -/
def stC3after : State := { stC3 with cache := [(none, ⟨"q1", "d", 1, "en"⟩)] }

/-- Claim C3: per-edit effect of the change-list engine.  The
language-code half holds, but the question-data half does not: the
source's inner branch tests `change.cmd` (already equal to
`CMD_UPDATE_QUESTION_PROPERTY`) against
`QUESTION_PROPERTY_QUESTION_DATA`, so it can never fire, and an
update-payload edit leaves `question_data` unchanged: applying
`[update-payload "d2"]` returns the snapshot with payload still `"d"`,
while a language edit in the same list is applied in order. -/
theorem question_data_edit_branch_unreachable :
    apply_change_list stC3 [updateQuestionDataChange "d2"] =
      .ok (⟨"q1", "d", 1, "en"⟩, stC3after) ∧
    apply_change_list stC3
        [updateLanguageCodeChange "fr", updateQuestionDataChange "d2"] =
      .ok (⟨"q1", "d", 1, "fr"⟩, stC3after) ∧
    (updateQuestionDataChange "d2").new_value = "d2" ∧
    CMD_UPDATE_QUESTION_PROPERTY ≠ QUESTION_PROPERTY_QUESTION_DATA := by
  decide


/-- An edit whose command string matches no recognized edit kind. -/
def bogusChange : QuestionChange := ⟨"add_answer_group", "foo", "v"⟩

/-- An `update_question_property` edit naming a property that does not
exist on the snapshot. -/
def missingFieldChange : QuestionChange :=
  ⟨CMD_UPDATE_QUESTION_PROPERTY, "no_such_field", "v"⟩

/-- A single-version question for exercising malformed edits. -/
def stC4 : State := ⟨[⟨"q1", "d", 1, "en", 1⟩], [], none, none⟩

/-- `stC4` after the read-through of `apply_change_list`. -/
def stC4after : State := { stC4 with cache := [(none, ⟨"q1", "d", 1, "en"⟩)] }

/-- Counterexample to claim C4: a change list containing an edit with an
unrecognized command and an edit referencing a nonexistent field does
not make `apply_change_list` fail with a `MalformedEdit` error — the
call succeeds and returns the snapshot unchanged, both edits silently
skipped. -/
theorem unrecognized_edit_does_not_error :
    apply_change_list stC4 [bogusChange, missingFieldChange] =
      .ok (⟨"q1", "d", 1, "en"⟩, stC4after) := by
  decide

/-- Claim C4 as amended: `apply_change_list` never raises on malformed
edits.  Whenever the pristine question loads, the whole list is folded
over it in order and the call returns `.ok` — so the all-or-nothing
half of the claim holds (either the full fold is returned or an error
precedes any application), but the error half does not: any edit that
is not a recognized language-code update (including unrecognized
commands and unknown property names) is a no-op, not a `MalformedEdit`
failure. -/
theorem apply_change_list_total_and_skips_unrecognized
    (st st1 : State) (change_list : List QuestionChange) (q : Question)
    (h : get_question_by_id st none = .ok (q, st1)) :
    apply_change_list st change_list =
      .ok (change_list.foldl apply_one_change q, st1) ∧
    ∀ question change,
      change.cmd ≠ CMD_UPDATE_QUESTION_PROPERTY ∨
        change.property_name ≠ QUESTION_PROPERTY_LANGUAGE_CODE →
      apply_one_change question change = question := by
  constructor
  · unfold apply_change_list
    rw [h]
  · intro question change hc
    unfold apply_one_change
    by_cases h1 : change.cmd = CMD_UPDATE_QUESTION_PROPERTY
    · rcases hc with hc | hc
      · exact absurd h1 hc
      · simp [h1, hc, CMD_UPDATE_QUESTION_PROPERTY,
          QUESTION_PROPERTY_QUESTION_DATA]
    · simp [h1]

/-- Witness for the amended claim C4 at a concrete input. -/
theorem apply_change_list_total_witness :
    apply_change_list stC4 [bogusChange] = .ok (⟨"q1", "d", 1, "en"⟩, stC4after) ∧
    apply_one_change ⟨"q1", "d", 1, "en"⟩ bogusChange = ⟨"q1", "d", 1, "en"⟩ :=
  ⟨(apply_change_list_total_and_skips_unrecognized stC4 stC4after [bogusChange]
      ⟨"q1", "d", 1, "en"⟩ rfl).1,
   (apply_change_list_total_and_skips_unrecognized stC4 stC4after [bogusChange]
      ⟨"q1", "d", 1, "en"⟩ rfl).2 ⟨"q1", "d", 1, "en"⟩ bogusChange
      (Or.inl (by decide))⟩

/-- A private question created by `"alice"`. -/
def stC5 : State :=
  ⟨[⟨"q1", "d", 1, "en", 1⟩], [], none, some ⟨"alice", "en", ACTIVITY_STATUS_PRIVATE⟩⟩

/-- A user who is neither the creator, nor an admin, nor a topic
manager, and holds no capability. -/
def outsiderBob : UserInfo := ⟨false, false, false⟩

/-- `stC5` after `"bob"` ran `update_question`: version 2 committed
with the new language, the unversioned key cached during the read. -/
def stC5updated : State :=
  ⟨[⟨"q1", "d", 1, "fr", 2⟩, ⟨"q1", "d", 1, "en", 1⟩],
   [(none, ⟨"q1", "d", 1, "en"⟩)], none,
   some ⟨"alice", "en", ACTIVITY_STATUS_PRIVATE⟩⟩

/-- Counterexample to claim C5: on a private question, a non-creator,
non-admin user is denied by `check_can_edit_question`, yet calling
`update_question` as that user does not fail with `PermissionDenied` —
`update_question` performs no permission check at all, invokes the
change-list engine and commits version 2. -/
theorem update_question_bypasses_permission_check :
    check_can_edit_question stC5 "bob" outsiderBob = .ok false ∧
    stC5.summary = some ⟨"alice", "en", ACTIVITY_STATUS_PRIVATE⟩ ∧
    update_question stC5 "bob" [updateLanguageCodeChange "fr"] "msg" =
      .ok stC5updated ∧
    stC5updated.models.head? = some ⟨"q1", "d", 1, "fr", 2⟩ := by
  decide

/-- Claim C5 as amended: `check_can_edit_question` does return `false`
for every non-creator, non-admin, non-topic-manager user on a private
question, but `update_question` never consults it (or any permission):
its outcome is independent of the committer, so enforcement is the
caller's responsibility. -/
theorem edit_permission_denied_but_update_unguarded
    (st : State) (user_id : String) (user : UserInfo)
    (s : QuestionSummaryModel) (h : st.summary = some s)
    (hstatus : s.status = ACTIVITY_STATUS_PRIVATE)
    (hcreator : s.creator_id ≠ user_id) (hadmin : user.is_admin = false)
    (htm : user.is_topic_manager = false) :
    check_can_edit_question st user_id user = .ok false ∧
    ∀ committer1 committer2 change_list msg1 msg2,
      update_question st committer1 change_list msg1 =
        update_question st committer2 change_list msg2 := by
  constructor
  · unfold check_can_edit_question
    rw [h]
    simp [hstatus, hcreator, hadmin, htm, ACTIVITY_STATUS_PRIVATE,
      QUESTION_STATUS_PENDING, QUESTION_STATUS_REJECTED,
      QUESTION_STATUS_APPROVED]
  · intro committer1 committer2 change_list msg1 msg2
    rfl

/-- Witness for the amended claim C5 at a concrete input. -/
theorem edit_permission_denied_but_update_unguarded_witness :
    check_can_edit_question stC5 "bob" outsiderBob = .ok false ∧
    update_question stC5 "x" [updateLanguageCodeChange "fr"] "m1" =
      update_question stC5 "y" [updateLanguageCodeChange "fr"] "m2" :=
  ⟨(edit_permission_denied_but_update_unguarded stC5 "bob" outsiderBob _
      rfl rfl (by decide) rfl rfl).1,
   (edit_permission_denied_but_update_unguarded stC5 "bob" outsiderBob _
      rfl rfl (by decide) rfl rfl).2 "x" "y" [updateLanguageCodeChange "fr"]
      "m1" "m2"⟩

/-- A question whose summary is pending review. -/
def stC6 : State := ⟨[], [], none, some ⟨"alice", "en", QUESTION_STATUS_PENDING⟩⟩

/-- `stC6` with the summary status moved to rejected. -/
def stC6rejected : State :=
  { stC6 with summary := some ⟨"alice", "en", QUESTION_STATUS_REJECTED⟩ }

/-- Counterexample to claim C6: `reject_question` consults no capability
whatsoever — the committer id is only recorded in the commit log — so a
caller without the status-change capability does not receive
`PermissionDenied`; the pending summary is moved to rejected all the
same. -/
theorem reject_question_ignores_capability :
    stC6.summary = some ⟨"alice", "en", QUESTION_STATUS_PENDING⟩ ∧
    reject_question stC6 "user_without_capability" = .ok stC6rejected ∧
    stC6rejected.summary = some ⟨"alice", "en", QUESTION_STATUS_REJECTED⟩ := by
  decide

/-- Claim C6 as amended: for every existing summary (whatever its
status) and every committer — with or without the status-change
capability — `reject_question` succeeds and sets the status to
rejected; the capability guard of the claim does not exist in the
code. -/
theorem reject_question_unconditional
    (st : State) (committer_id : String) (s : QuestionSummaryModel)
    (h : st.summary = some s) :
    reject_question st committer_id =
      .ok { st with summary := some { s with status := QUESTION_STATUS_REJECTED } } := by
  unfold reject_question
  rw [h]

/-- Witness for the amended claim C6 at a concrete input. -/
theorem reject_question_unconditional_witness :
    reject_question stC6 "mallory" = .ok stC6rejected :=
  reject_question_unconditional stC6 "mallory" _ rfl


/-- A private question created by `"carol"`, for the C7 witness. -/
def stC7 : State := ⟨[], [], none, some ⟨"carol", "en", ACTIVITY_STATUS_PRIVATE⟩⟩

/-- Claim C7: the edit-permission predicate.  With an existing summary,
`check_can_edit_question` answers `true` exactly when the status is
private or rejected and the user is the creator, or the user is an
admin or topic manager and the status is approved; and it answers
`false` for everyone — admins and topic managers included — when the
status is pending. -/
theorem check_can_edit_question_characterization
    (st : State) (user_id : String) (user : UserInfo)
    (s : QuestionSummaryModel) (h : st.summary = some s) :
    (check_can_edit_question st user_id user = .ok true ↔
      (((s.status = ACTIVITY_STATUS_PRIVATE ∨
          s.status = QUESTION_STATUS_REJECTED) ∧ s.creator_id = user_id) ∨
        ((user.is_admin = true ∨ user.is_topic_manager = true) ∧
          s.status = QUESTION_STATUS_APPROVED))) ∧
    (s.status = QUESTION_STATUS_PENDING →
      check_can_edit_question st user_id user = .ok false) := by
  unfold check_can_edit_question
  rw [h]
  constructor
  · by_cases hp : s.status = QUESTION_STATUS_PENDING
    · simp [hp, QUESTION_STATUS_PENDING, ACTIVITY_STATUS_PRIVATE,
        QUESTION_STATUS_REJECTED, QUESTION_STATUS_APPROVED]
    · by_cases hcr : (s.status = ACTIVITY_STATUS_PRIVATE ∨
          s.status = QUESTION_STATUS_REJECTED) ∧ s.creator_id = user_id
      · simp [hp, hcr]
      · by_cases hadm : (user.is_admin || user.is_topic_manager) = true
        · by_cases happ : s.status = QUESTION_STATUS_APPROVED
          · simp_all
          · simp_all
        · simp_all
  · intro hp
    simp [hp, QUESTION_STATUS_PENDING]

/-- Witness for claim C7 at a concrete input: the creator of a private
question may edit it. -/
theorem check_can_edit_question_characterization_witness :
    check_can_edit_question stC7 "carol" ⟨false, false, false⟩ = .ok true :=
  (check_can_edit_question_characterization stC7 "carol" ⟨false, false, false⟩
    _ rfl).1.mpr (Or.inl ⟨Or.inl rfl, rfl⟩)

/-- Claim C8: workflow guards of publish and unpublish.  With an
existing summary: a committer without the status-change capability gets
`PermissionDenied` from both; with the capability, `publish_question`
raises `AlreadyPublished` exactly when the status is already approved
and otherwise sets it to approved, while `unpublish_question` raises
`AlreadyUnpublished` exactly when the status is not approved and
otherwise sets it to private.  Every failing path raises before any
`put()`, so the stored summary is untouched (errors return no state). -/
theorem publish_unpublish_guards
    (st : State) (committer : UserInfo) (s : QuestionSummaryModel)
    (h : st.summary = some s) :
    (committer.can_change_question_status = false →
      publish_question st committer = .error .permissionDenied ∧
      unpublish_question st committer = .error .permissionDenied) ∧
    (committer.can_change_question_status = true →
      s.status = QUESTION_STATUS_APPROVED →
      publish_question st committer = .error .alreadyPublished ∧
      unpublish_question st committer = .ok { st with summary := some { s with status := ACTIVITY_STATUS_PRIVATE } }) ∧
    (committer.can_change_question_status = true →
      s.status ≠ QUESTION_STATUS_APPROVED →
      publish_question st committer = .ok { st with summary := some { s with status := QUESTION_STATUS_APPROVED } } ∧
      unpublish_question st committer = .error .alreadyUnpublished) := by
  unfold publish_question unpublish_question
  rw [h]
  refine ⟨?_, ?_, ?_⟩
  · intro hcap
    simp [hcap]
  · intro hcap hst
    simp [hcap, hst]
  · intro hcap hst
    simp [hcap, hst]

/-- A private question summary and a committer with the status-change
capability, for the C8 witness. -/
def stC8 : State := ⟨[], [], none, some ⟨"alice", "en", ACTIVITY_STATUS_PRIVATE⟩⟩

/-- A committer holding the status-change capability. -/
def reviewerCap : UserInfo := ⟨false, false, true⟩

/-- Witness for claim C8 at a concrete input: publishing a private
question succeeds, unpublishing it raises `AlreadyUnpublished`. -/
theorem publish_unpublish_guards_witness :
    publish_question stC8 reviewerCap = .ok { stC8 with summary := some ⟨"alice", "en", QUESTION_STATUS_APPROVED⟩ } ∧
    unpublish_question stC8 reviewerCap = .error .alreadyUnpublished :=
  (publish_unpublish_guards stC8 reviewerCap _ rfl).2.2 rfl (by decide)

/-- A question whose draft row carries an empty change list saved at
time 5 against base version 1, with draft id 3. -/
def stC9 : State :=
  ⟨[⟨"q1", "d", 1, "en", 1⟩], [], some ⟨some [], some 5, some 1, 3⟩, none⟩

/-- What `create_or_update_draft` actually leaves behind at `stC9` when
called with `current_datetime = 3`: everything overwritten, id 4. -/
def stC9after : State :=
  ⟨[⟨"q1", "d", 1, "en", 1⟩], [(none, ⟨"q1", "d", 1, "en"⟩)],
   some ⟨some [updateLanguageCodeChange "fr"], some 3, some 2, 4⟩, none⟩

/-- Counterexample to claim C9: the stored draft's `last_updated` (5) is
strictly newer than the supplied `current_datetime` (3), yet the call is
not a no-op — because the stored change list is empty, the guard's
truthiness test fails and every draft field is overwritten (id bumped
from 3 to 4, timestamp moved back to 3). -/
theorem draft_guard_skipped_for_empty_change_list :
    (stC9.userData.map fun d => d.draft_change_list_last_updated) =
      some (some 5) ∧
    (3 : Nat) < 5 ∧
    create_or_update_draft stC9 [updateLanguageCodeChange "fr"] 2 3 =
      .ok stC9after ∧
    stC9after ≠ stC9 := by
  decide

/-- Claim C9 as amended: the last-writer guard fires only when the
existing draft's change list is non-empty in addition to its
`last_updated` being strictly newer than `current_datetime`; in every
other case (and provided the question loads), the call replaces the
change list, sets the base version and timestamp from the arguments,
and increments `draft_change_list_id` by exactly one, from 0 when no
row existed. -/
theorem create_or_update_draft_characterization
    (st : State) (change_list : List QuestionChange)
    (question_version current_datetime : Nat) :
    (∀ d l t, st.userData = some d → d.draft_change_list = some l →
      l ≠ [] → d.draft_change_list_last_updated = some t →
      current_datetime < t →
      create_or_update_draft st change_list question_version
        current_datetime = .ok st) ∧
    ((draftTruthy st.userData && draftNewer st.userData current_datetime) =
        false →
      ∀ q st1, get_question_by_id st none = .ok (q, st1) →
      create_or_update_draft st change_list question_version
        current_datetime =
        .ok { st1 with userData := some ⟨some change_list, some current_datetime, some question_version, (match st.userData with | none => 0 | some d => d.draft_change_list_id) + 1⟩ }) := by
  constructor
  · intro d l t hd hl hlne ht hlt
    have hg : (draftTruthy st.userData &&
        draftNewer st.userData current_datetime) = true := by
      simp only [draftTruthy, draftNewer, hd, hl, ht]
      cases l with
      | nil => exact absurd rfl hlne
      | cons a as => simp [hlt]
    simp [create_or_update_draft, hg]
  · intro hg q st1 hget
    cases hud : st.userData with
    | none =>
      simp_all [create_or_update_draft, apply_change_list,
        QuestionUserDataModel.create]
    | some d =>
      simp_all [create_or_update_draft, apply_change_list,
        QuestionUserDataModel.create]

/-- A question with no draft row yet, for the C9 witness. -/
def stC9w : State := ⟨[⟨"q1", "d", 1, "en", 1⟩], [], none, none⟩

/-- The state after the first draft save on `stC9w`: row created, id
incremented from 0 to 1, cache filled by the read-through. -/
def stC9wAfter : State :=
  ⟨[⟨"q1", "d", 1, "en", 1⟩], [(none, ⟨"q1", "d", 1, "en"⟩)],
   some ⟨some [updateLanguageCodeChange "de"], some 42, some 7, 1⟩, none⟩

/-- Witness for the amended claim C9 at a concrete input. -/
theorem create_or_update_draft_characterization_witness :
    create_or_update_draft stC9w [updateLanguageCodeChange "de"] 7 42 =
      .ok stC9wAfter :=
  (create_or_update_draft_characterization stC9w
    [updateLanguageCodeChange "de"] 7 42).2 rfl ⟨"q1", "d", 1, "en"⟩
    { stC9w with cache := [(none, ⟨"q1", "d", 1, "en"⟩)] } rfl

/-- Claim C10: idempotence of discard.  `discard_draft` is a total
function (it never errors, also when no draft row exists); running it
twice equals running it once; with no row it is the identity; with a
row it clears the change list, timestamp and base version while
retaining the row and its `draft_change_list_id`. -/
theorem discard_draft_idempotent (st : State) :
    discard_draft (discard_draft st) = discard_draft st ∧
    (st.userData = none → discard_draft st = st) ∧
    ∀ d, st.userData = some d →
      discard_draft st = { st with userData := some ⟨none, none, none, d.draft_change_list_id⟩ } := by
  cases hud : st.userData with
  | none => simp [discard_draft, hud]
  | some d => simp [discard_draft, hud]

/-- A draft row with content and id 5, for the C10 witness. -/
def stC10 : State :=
  ⟨[], [], some ⟨some [updateLanguageCodeChange "fr"], some 9, some 2, 5⟩, none⟩

/-- `stC10` with the draft fields cleared but the row and id kept. -/
def stC10cleared : State := { stC10 with userData := some ⟨none, none, none, 5⟩ }

/-- Witness for claim C10 at a concrete input. -/
theorem discard_draft_idempotent_witness :
    discard_draft (discard_draft stC10) = discard_draft stC10 ∧
    discard_draft stC10 = stC10cleared :=
  ⟨(discard_draft_idempotent stC10).1,
   (discard_draft_idempotent stC10).2.2
     ⟨some [updateLanguageCodeChange "fr"], some 9, some 2, 5⟩ rfl⟩

end QuestionServices
